import Mathlib

/-!
Shallow embedding of mycroft/client/speech/listener.py from the JarbasAI
repository: the AudioConsumer pipeline (read / wake_up / process / transcribe),
the RecognizerLoop mute reference counting, and the shutdown sequence of
RecognizerLoop.stop. Effectful code is modelled as pure functions returning an
explicit list of actions (events emitted, log lines, metric records, backend
invocations) alongside their result value.
-/

/-- Audio chunk metadata: byte length of frame_data, sample rate, sample width. -/
structure AudioData where
  frame_data_len : Nat
  sample_rate : Nat
  sample_width : Nat
  deriving DecidableEq

/-- Event payload dictionary: each field is present (some) or absent (none),
mirroring the Python dict keys used in listener.py. -/
structure Payload where
  utterance : Option String
  utterances : Option (List String)
  lang : Option String
  session : Option String
  deriving DecidableEq

/-- One observable action of the consumer: an emitted event, a log line, a
metric record, an STT backend invocation, a wakeup detector consultation, or a
session touch. -/
inductive Act where
  | emit (name : String) (payload : Option Payload)
  | logError (msg : String)
  | logWarning (msg : String)
  | logDebug (msg : String)
  | metricAttr (key : String) (vals : List String)
  | metricIncrement (key : String)
  | sttExecute
  | wakeupDetect
  | sessionTouch
  deriving DecidableEq

/-- Outcome of the external STT backend call stt.execute: a returned string or
one of the four distinguishable exception classes caught in transcribe. -/
inductive STTResult where
  | success (text : String)
  | requestError (msg : String)
  | connectionError (msg : String)
  | httpError (status : Nat)
  | otherError (msg : String)
  deriving DecidableEq

/-- Context of the consumer at the time of a call: stt.lang, the current
session id, the pending hotword (self.word), the default wake phrase
(wakeword_recognizer.key_phrase) and the external dialog lookup
mycroft.dialog.get. -/
structure ConsumerCtx where
  lang : String
  session : String
  word : String
  key_phrase : String
  dialogGet : String → String → String

/-- Modelled from the spec: the external normalization pair .lower().strip()
applied to the backend text (lowercase every character, then drop leading and
trailing whitespace); the Python string builtins are outside src/. -/
def lowerStrip (s : String) : String :=
  String.mk
    ((((s.data.map Char.toLower).dropWhile (fun c => c.isWhitespace)).reverse.dropWhile
        (fun c => c.isWhitespace)).reverse)

/-- Python truthiness of the text variable in transcribe: None and the empty
string are falsy. -/
def textTruthy : Option String → Bool
  | none => false
  | some t => !(t == "")

/-- The private AudioConsumer.__speak helper: emit a speak event carrying the
utterance and the current session id. -/
def speakAct (ctx : ConsumerCtx) (utt : String) : Act :=
  Act.emit "speak" (some ⟨some utt, none, none, some ctx.session⟩)

/-- AudioConsumer.transcribe: invoke the STT backend, classify the outcome via
the except chain (RequestError, ConnectionError, HTTPError, generic Exception),
then emit an utterance event when the resulting text is truthy and the emit
flag is set. Returns the action list and the final text variable. -/
def transcribe (ctx : ConsumerCtx) (res : STTResult) (emitFlag : Bool) :
    List Act × Option String :=
  let tryPart : List Act × Option String :=
    match res with
    | .success s =>
        let t := lowerStrip s
        ([Act.logDebug ("STT: " ++ t)], some t)
    | .requestError msg =>
        ([Act.logError ("Could not request Speech Recognition " ++ msg)], none)
    | .connectionError msg =>
        ([Act.logError ("Connection Error: " ++ msg),
          Act.emit "recognizer_loop:no_internet" none], none)
    | .httpError status =>
        if status = 401 then
          ([Act.logWarning "Access Denied at mycroft.ai"], some "pair my device")
        else ([], none)
    | .otherError msg =>
        ([Act.logError msg,
          Act.logError "Speech Recognition could not understand audio",
          speakAct ctx (ctx.dialogGet "i didn\x27t catch that" ctx.lang),
          Act.emit "recognizer_loop:speak"
            (some ⟨some "Speech Recognition could not understand audio",
                   none, none, none⟩)], none)
  let post : List Act :=
    if textTruthy tryPart.2 && emitFlag then
      [Act.emit "recognizer_loop:utterance"
         (some ⟨none, some [tryPart.2.getD ""], some ctx.lang, some ctx.session⟩),
       Act.metricAttr "utterances" [tryPart.2.getD ""]]
    else []
  (Act.logDebug "Transcribing audio" :: Act.sttExecute :: (tryPart.1 ++ post),
   tryPart.2)

/-- AudioConsumer.MIN_AUDIO_SIZE: minimum audio size in seconds. -/
def MIN_AUDIO_SIZE : ℚ := 1 / 2

/-- AudioConsumer._audio_length: len(frame_data) / (sample_rate * sample_width),
as an exact rational. -/
def audio_length (a : AudioData) : ℚ :=
  (a.frame_data_len : ℚ) / ((a.sample_rate : ℚ) * (a.sample_width : ℚ))

/-- AudioConsumer.process: touch the session, emit the wakeword event, screen
the buffer length against MIN_AUDIO_SIZE (log and discard when too short,
transcribe otherwise), then reset the pending word to the default key phrase. -/
def process (ctx : ConsumerCtx) (a : AudioData) (res : STTResult) :
    List Act × ConsumerCtx :=
  let pre : List Act :=
    [Act.sessionTouch,
     Act.emit "recognizer_loop:wakeword"
       (some ⟨some ctx.word, none, none, some ctx.session⟩)]
  let mid : List Act :=
    if audio_length a < MIN_AUDIO_SIZE then
      [Act.logWarning "Audio too short to be processed"]
    else (transcribe ctx res true).1
  (pre ++ mid, { ctx with word := ctx.key_phrase })

/-- AudioConsumer.wake_up: consult the wakeup recognizer; on detection touch
the session, clear sleeping, speak the awake acknowledgment and increment the
wakeup metric. Returns the actions and the new sleeping flag. -/
def wake_up (ctx : ConsumerCtx) (found : Bool) (sleeping : Bool) :
    List Act × Bool :=
  if found then
    ([Act.wakeupDetect, Act.sessionTouch,
      speakAct ctx (ctx.dialogGet "i am awake" ctx.lang),
      Act.metricIncrement "mycroft.wakeup"], false)
  else ([Act.wakeupDetect], sleeping)

/-- AudioConsumer.read: dequeue one item; None is a no-op; otherwise route the
buffer through wake_up when sleeping and through process when awake. The two
external inputs are the wakeup detector verdict and the would-be STT outcome. -/
def consumerRead (ctx : ConsumerCtx) (sleeping : Bool) (item : Option AudioData)
    (found : Bool) (res : STTResult) : List Act × ConsumerCtx × Bool :=
  match item with
  | none => ([], ctx, sleeping)
  | some a =>
      if sleeping then
        ((wake_up ctx found sleeping).1, ctx, (wake_up ctx found sleeping).2)
      else
        ((process ctx a res).1, (process ctx a res).2, sleeping)

/-- Action predicate: is an emit of the given event name. -/
def emitsTo (name : String) : Act → Bool
  | .emit n _ => n == name
  | _ => false

/-- Action predicate: is the STT backend invocation. -/
def isSTT : Act → Bool
  | .sttExecute => true
  | _ => false

/-- Action predicate: is an error log line. -/
def isLogError : Act → Bool
  | .logError _ => true
  | _ => false

/-- Action predicate: is a warning log line. -/
def isLogWarning : Act → Bool
  | .logWarning _ => true
  | _ => false

/-- Action predicate: is a metric attribute record. -/
def isMetricAttr : Act → Bool
  | .metricAttr _ _ => true
  | _ => false

/-- Action predicate: is the wakeup detector consultation. -/
def isWakeupDetect : Act → Bool
  | .wakeupDetect => true
  | _ => false

/-- Number of actions in the list satisfying the predicate. -/
def countIf (f : Act → Bool) (acts : List Act) : Nat := (acts.filter f).length

/-- The subsequence of emitted events (name and payload), in order. -/
def emittedEvents (acts : List Act) : List (String × Option Payload) :=
  acts.filterMap fun a =>
    match a with
    | .emit n p => some (n, p)
    | _ => none

/-- A sample consumer context used for concrete evaluations. -/
def ctx0 : ConsumerCtx :=
  ⟨"en-us", "session0", "hey mycroft", "hey mycroft", fun phrase _ => phrase⟩

/-- Claim C4: an HTTP 401 authentication failure makes transcribe proceed as a
success with the literal text "pair my device": exactly one utterance event is
emitted, carrying that single utterance, the configured language and the
current session id. -/
theorem auth_failure_pairing_utterance (ctx : ConsumerCtx) :
    emittedEvents (transcribe ctx (STTResult.httpError 401) true).1 =
      [("recognizer_loop:utterance",
        some ⟨none, some ["pair my device"], some ctx.lang, some ctx.session⟩)] ∧
    (transcribe ctx (STTResult.httpError 401) true).2 = some "pair my device" :=
  ⟨rfl, rfl⟩

/-- Claim C5: a connectivity failure in the backend call logs the error, emits
exactly one no_internet event and no other event (in particular zero utterance
events), and invokes the backend exactly once (no retry). -/
theorem connectivity_failure_no_internet (ctx : ConsumerCtx) (msg : String) :
    emittedEvents (transcribe ctx (STTResult.connectionError msg) true).1 =
      [("recognizer_loop:no_internet", none)] ∧
    countIf isLogError (transcribe ctx (STTResult.connectionError msg) true).1 = 1 ∧
    countIf isSTT (transcribe ctx (STTResult.connectionError msg) true).1 = 1 :=
  ⟨rfl, rfl, rfl⟩

/-- Claim C10: an unclassified transcription failure emits exactly two events:
a speak event whose payload carries the localized apology utterance and the
current session id, and a recognizer_loop:speak event whose payload carries the
fixed string and has no session field. -/
theorem unclassified_failure_two_events (ctx : ConsumerCtx) (msg : String) :
    emittedEvents (transcribe ctx (STTResult.otherError msg) true).1 =
      [("speak",
        some ⟨some (ctx.dialogGet "i didn\x27t catch that" ctx.lang),
              none, none, some ctx.session⟩),
       ("recognizer_loop:speak",
        some ⟨some "Speech Recognition could not understand audio",
              none, none, none⟩)] :=
  rfl

/-- Counterexample to claim C3 at the concrete input HTTPError with status 404:
the except HTTPError branch handles only status 401 and otherwise falls
through, so a non-401 HTTP error emits no event at all (in particular no speak
event) and logs no error line, contradicting the claimed speak-plus-log
behavior for this failure class. -/
theorem http_error_non_401_silent :
    emittedEvents (transcribe ctx0 (STTResult.httpError 404) true).1 = [] ∧
    countIf isLogError (transcribe ctx0 (STTResult.httpError 404) true).1 = 0 :=
  ⟨rfl, rfl⟩

/-- Claim C3 (amended): for every transcription failure other than backend
request rejection, connectivity failure, and HTTP errors of any status, the
consumer logs the error and emits a speak event carrying the fixed failure
utterance, and emits no utterance event. -/
theorem other_failure_speak_feedback (ctx : ConsumerCtx) (msg : String) :
    countIf isLogError (transcribe ctx (STTResult.otherError msg) true).1 = 2 ∧
    countIf (emitsTo "speak") (transcribe ctx (STTResult.otherError msg) true).1 = 1 ∧
    ("speak",
      some ⟨some (ctx.dialogGet "i didn\x27t catch that" ctx.lang),
            none, none, some ctx.session⟩)
      ∈ emittedEvents (transcribe ctx (STTResult.otherError msg) true).1 ∧
    countIf (emitsTo "recognizer_loop:utterance")
      (transcribe ctx (STTResult.otherError msg) true).1 = 0 :=
  ⟨rfl, rfl, List.mem_cons_self _ _, rfl⟩

/-- Claim C9: when the backend succeeds but the text is empty after lowercasing
and trimming, transcribe emits no event at all and records no usage metric. -/
theorem empty_transcription_silent (ctx : ConsumerCtx) (s : String)
    (h : lowerStrip s = "") :
    emittedEvents (transcribe ctx (STTResult.success s) true).1 = [] ∧
    countIf isMetricAttr (transcribe ctx (STTResult.success s) true).1 = 0 := by
  have hb : textTruthy (some (lowerStrip s)) = false := by rw [h]; rfl
  constructor <;> simp [transcribe, hb, emittedEvents, countIf, isMetricAttr]

/-- Witness for claim C9 at a whitespace-only transcription. -/
theorem empty_transcription_silent_witness :
    emittedEvents (transcribe ctx0 (STTResult.success " ") true).1 = [] ∧
    countIf isMetricAttr (transcribe ctx0 (STTResult.success " ") true).1 = 0 :=
  empty_transcription_silent ctx0 " " rfl

/-- Claim C7: while sleeping, the consumer consults only the dedicated wake-up
detector: reading a buffer invokes no STT backend call, emits no wakeword and
no utterance event, performs no length screening, and does consult the wakeup
detector. -/
theorem sleeping_only_wakeup_detector (ctx : ConsumerCtx) (a : AudioData)
    (found : Bool) (res : STTResult) :
    countIf isSTT (consumerRead ctx true (some a) found res).1 = 0 ∧
    countIf (emitsTo "recognizer_loop:wakeword")
      (consumerRead ctx true (some a) found res).1 = 0 ∧
    countIf (emitsTo "recognizer_loop:utterance")
      (consumerRead ctx true (some a) found res).1 = 0 ∧
    countIf isLogWarning (consumerRead ctx true (some a) found res).1 = 0 ∧
    0 < countIf isWakeupDetect (consumerRead ctx true (some a) found res).1 := by
  cases found <;> exact ⟨rfl, rfl, rfl, rfl, Nat.one_pos⟩

/-- Splitting an action count over an append. -/
theorem countIf_append (f : Act → Bool) (xs ys : List Act) :
    countIf f (xs ++ ys) = countIf f xs + countIf f ys := by
  simp [countIf, List.filter_append]

/-- Every branch of transcribe invokes the STT backend exactly once. -/
theorem transcribe_stt_count (ctx : ConsumerCtx) (res : STTResult) (e : Bool) :
    countIf isSTT (transcribe ctx res e).1 = 1 := by
  cases res <;>
    · simp only [transcribe]
      repeat' split
      all_goals simp [countIf, isSTT, speakAct, List.filter_append]

/-- Claim C6: on the awake path a buffer whose duration
len / (rate * width) is below 0.5 seconds is logged and discarded and the STT
backend is never invoked for it; otherwise the buffer is passed to
transcription (the backend is invoked). -/
theorem short_audio_not_transcribed (ctx : ConsumerCtx) (a : AudioData)
    (res : STTResult) :
    (audio_length a < MIN_AUDIO_SIZE →
      countIf isLogWarning (process ctx a res).1 = 1 ∧
      countIf isSTT (process ctx a res).1 = 0) ∧
    (¬ audio_length a < MIN_AUDIO_SIZE →
      countIf isSTT (process ctx a res).1 = 1) := by
  constructor
  · intro h
    simp only [process]
    rw [if_pos h]
    exact ⟨rfl, rfl⟩
  · intro h
    simp only [process]
    rw [if_neg h, countIf_append, transcribe_stt_count]
    rfl

/-- Witness for claim C6: a quarter-second buffer is discarded without invoking
the backend, while a one-second buffer reaches the backend. -/
theorem short_audio_not_transcribed_witness :
    (countIf isLogWarning
        (process ctx0 ⟨8000, 16000, 2⟩ (STTResult.success "hello")).1 = 1 ∧
      countIf isSTT
        (process ctx0 ⟨8000, 16000, 2⟩ (STTResult.success "hello")).1 = 0) ∧
    countIf isSTT
      (process ctx0 ⟨32000, 16000, 2⟩ (STTResult.success "hello")).1 = 1 :=
  ⟨(short_audio_not_transcribed ctx0 ⟨8000, 16000, 2⟩ (STTResult.success "hello")).1
      (by norm_num [audio_length, MIN_AUDIO_SIZE]),
   (short_audio_not_transcribed ctx0 ⟨32000, 16000, 2⟩ (STTResult.success "hello")).2
      (by norm_num [audio_length, MIN_AUDIO_SIZE])⟩

/-- State of the MutableMicrophone collaborator: whether it is physically
muted. Modelled from the spec: the microphone abstraction exposes mute,
unmute and is_muted; its implementation is outside src/. -/
structure MicState where
  muted : Bool
  deriving DecidableEq

/-- A physical request forwarded to the microphone by the mute gate. -/
inductive MicAct where
  | reqMute
  | reqUnmute
  deriving DecidableEq

/-- The RecognizerLoop fields involved in the mute gate: the mute_calls
reference count (a Python int) and the optional microphone. -/
structure LoopMuteState where
  mute_calls : Int
  microphone : Option MicState
  deriving DecidableEq

/-- RecognizerLoop.mute: increment mute_calls, then request a physical mute
when a microphone exists. -/
def RecognizerLoop_mute (s : LoopMuteState) : LoopMuteState × List MicAct :=
  match s.microphone with
  | some _ =>
      ({ mute_calls := s.mute_calls + 1, microphone := some ⟨true⟩ },
       [MicAct.reqMute])
  | none => ({ s with mute_calls := s.mute_calls + 1 }, [])

/-- RecognizerLoop.unmute: decrement mute_calls when positive; when the count
has reached zero or below and a microphone exists, request a physical unmute
and reset the count to zero. -/
def RecognizerLoop_unmute (s : LoopMuteState) : LoopMuteState × List MicAct :=
  let c1 : Int := if 0 < s.mute_calls then s.mute_calls - 1 else s.mute_calls
  if c1 ≤ 0 then
    match s.microphone with
    | some _ => ({ mute_calls := 0, microphone := some ⟨false⟩ }, [MicAct.reqUnmute])
    | none => ({ s with mute_calls := c1 }, [])
  else ({ s with mute_calls := c1 }, [])

/-- RecognizerLoop.force_unmute: reset the count to zero and call unmute. -/
def RecognizerLoop_force_unmute (s : LoopMuteState) : LoopMuteState × List MicAct :=
  RecognizerLoop_unmute { s with mute_calls := 0 }

/-- RecognizerLoop.is_muted: the microphone state when one exists; no
microphone counts as muted. -/
def RecognizerLoop_is_muted (s : LoopMuteState) : Bool :=
  match s.microphone with
  | some m => m.muted
  | none => true

/-- One external call in a mute/unmute sequence. -/
inductive MuteOp where
  | muteCall
  | unmuteCall
  deriving DecidableEq

/-- Apply one mute or unmute call, keeping only the state. -/
def applyOp (s : LoopMuteState) : MuteOp → LoopMuteState
  | .muteCall => (RecognizerLoop_mute s).1
  | .unmuteCall => (RecognizerLoop_unmute s).1

/-- Run a sequence of mute/unmute calls from a starting state. -/
def runOps (s : LoopMuteState) (ops : List MuteOp) : LoopMuteState :=
  ops.foldl applyOp s

/-- The +1 / -1 contribution of a call, as in the claimed sum formula. -/
def opDelta : MuteOp → Int
  | .muteCall => 1
  | .unmuteCall => -1

/-- The claimed aggregate: signed sum of the whole call sequence. -/
def opSum (ops : List MuteOp) : Int := (ops.map opDelta).sum

/-- One step of the per-call clamped count: mute adds one, unmute subtracts
one clamping at zero. -/
def clampStep (c : Int) : MuteOp → Int
  | .muteCall => c + 1
  | .unmuteCall => max 0 (c - 1)

/-- The per-call clamped fold of a call sequence. -/
def clampedMuteCount (c : Int) (ops : List MuteOp) : Int := ops.foldl clampStep c

/-- Initial state after RecognizerLoop.__init__ and _load_config: count zero
and, when a microphone is configured, a microphone muted iff the count is
positive (hence unmuted). -/
def initLoopState (hasMic : Bool) : LoopMuteState :=
  ⟨0, if hasMic then some ⟨false⟩ else none⟩

/-- Microphone invariant: a present microphone is physically muted exactly when
the reference count is positive. -/
def micOk (s : LoopMuteState) : Prop :=
  ∀ m, s.microphone = some m → m.muted = decide (0 < s.mute_calls)

theorem applyOp_step (s : LoopMuteState) (op : MuteOp)
    (h0 : 0 ≤ s.mute_calls) (hm : micOk s) :
    (applyOp s op).mute_calls = clampStep s.mute_calls op ∧
    0 ≤ (applyOp s op).mute_calls ∧
    micOk (applyOp s op) ∧
    (applyOp s op).microphone.isSome = s.microphone.isSome := by
  cases op with
  | muteCall =>
      cases hmic : s.microphone with
      | some m =>
          refine ⟨?_, ?_, ?_, ?_⟩ <;>
            simp [applyOp, RecognizerLoop_mute, hmic, clampStep, micOk] <;> omega
      | none =>
          refine ⟨?_, ?_, ?_, ?_⟩ <;>
            simp [applyOp, RecognizerLoop_mute, hmic, clampStep, micOk]
          omega
  | unmuteCall =>
      cases hmic : s.microphone with
      | some m =>
          by_cases hpos : 0 < s.mute_calls
          · by_cases hle : s.mute_calls - 1 ≤ 0
            · refine ⟨?_, ?_, ?_, ?_⟩ <;>
                simp [applyOp, RecognizerLoop_unmute, hmic, hpos, hle, clampStep,
                      micOk]
            · have h2 := hm m hmic
              refine ⟨?_, ?_, ?_, ?_⟩ <;>
                simp [applyOp, RecognizerLoop_unmute, hmic, hpos, hle, clampStep,
                      micOk, h2, decide_eq_decide] <;> omega
          · refine ⟨?_, ?_, ?_, ?_⟩ <;>
              simp [applyOp, RecognizerLoop_unmute, hmic, hpos, clampStep, micOk,
                    show s.mute_calls ≤ 0 by omega]
            omega
      | none =>
          by_cases hpos : 0 < s.mute_calls
          · by_cases hle : s.mute_calls - 1 ≤ 0
            · refine ⟨?_, ?_, ?_, ?_⟩ <;>
                simp [applyOp, RecognizerLoop_unmute, hmic, hpos, hle, clampStep,
                      micOk] <;> omega
            · refine ⟨?_, ?_, ?_, ?_⟩ <;>
                simp [applyOp, RecognizerLoop_unmute, hmic, hpos, hle, clampStep,
                      micOk] <;> omega
          · refine ⟨?_, ?_, ?_, ?_⟩ <;>
              simp [applyOp, RecognizerLoop_unmute, hmic, hpos, clampStep, micOk,
                    show s.mute_calls ≤ 0 by omega] <;> omega

theorem runOps_core (ops : List MuteOp) (s : LoopMuteState)
    (h0 : 0 ≤ s.mute_calls) (hm : micOk s) :
    (runOps s ops).mute_calls = clampedMuteCount s.mute_calls ops ∧
    0 ≤ (runOps s ops).mute_calls ∧
    micOk (runOps s ops) ∧
    (runOps s ops).microphone.isSome = s.microphone.isSome := by
  induction ops generalizing s with
  | nil => exact ⟨rfl, h0, hm, rfl⟩
  | cons op rest ih =>
      have hstep := applyOp_step s op h0 hm
      have hrest := ih (applyOp s op) hstep.2.1 hstep.2.2.1
      refine ⟨?_, hrest.2.1, hrest.2.2.1, ?_⟩
      · show (runOps (applyOp s op) rest).mute_calls =
          clampedMuteCount (clampStep s.mute_calls op) rest
        rw [← hstep.1]
        exact hrest.1
      · show (runOps (applyOp s op) rest).microphone.isSome = s.microphone.isSome
        rw [hrest.2.2.2, hstep.2.2.2]

/-- Counterexample to claim C2 at the concrete call sequence
[unmute, mute] from the initial state with a microphone: the code leaves the
count at 1 (the unmute at count zero is clamped at that step), while the
claimed formula max(0, signed sum) gives 0. -/
theorem mute_count_not_max_of_sum :
    ((runOps (initLoopState true) [MuteOp.unmuteCall, MuteOp.muteCall]).mute_calls =
      max 0 (opSum [MuteOp.unmuteCall, MuteOp.muteCall])) = False := by
  simp only [eq_iff_iff, iff_false]
  decide

/-- Claim C2 (amended): for every finite sequence of mute/unmute calls from the
initial state, the resulting count is the per-call clamped fold (mute adds one,
unmute subtracts one clamping at zero); the count is never negative at any
intermediate point; and is_muted is true exactly when the count is positive or
there is no microphone. -/
theorem mute_unmute_clamped_spec (hasMic : Bool) (ops : List MuteOp) :
    (runOps (initLoopState hasMic) ops).mute_calls = clampedMuteCount 0 ops ∧
    (∀ n, 0 ≤ (runOps (initLoopState hasMic) (ops.take n)).mute_calls) ∧
    RecognizerLoop_is_muted (runOps (initLoopState hasMic) ops) =
      (decide (0 < (runOps (initLoopState hasMic) ops).mute_calls) || !hasMic) := by
  have hinit0 : 0 ≤ (initLoopState hasMic).mute_calls := le_refl 0
  have hinitm : micOk (initLoopState hasMic) := by
    intro m hmem
    cases hasMic with
    | false => simp [initLoopState] at hmem
    | true =>
        simp [initLoopState] at hmem
        rw [← hmem]
        simp [initLoopState]
  have hall := runOps_core ops (initLoopState hasMic) hinit0 hinitm
  refine ⟨hall.1, ?_, ?_⟩
  · intro n
    exact (runOps_core (ops.take n) (initLoopState hasMic) hinit0 hinitm).2.1
  · have hsome := hall.2.2.2
    cases hasMic with
    | false =>
        have h1 : (runOps (initLoopState false) ops).microphone.isSome = false := by
          rw [hsome]
          rfl
        have h2 : (runOps (initLoopState false) ops).microphone = none :=
          Option.not_isSome_iff_eq_none.mp (by simp [h1])
        simp [RecognizerLoop_is_muted, h2]
    | true =>
        have h1 : (runOps (initLoopState true) ops).microphone.isSome = true := by
          rw [hsome]
          rfl
        obtain ⟨m, hmem⟩ := Option.isSome_iff_exists.mp h1
        have := hall.2.2.1 m hmem
        simp [RecognizerLoop_is_muted, hmem, this]

/-- Claim C8: for every prior state with a microphone, force_unmute leaves the
mute count at zero, requests a physical unmute of the microphone, and leaves
the microphone unmuted. -/
theorem force_unmute_resets_and_unmutes (s : LoopMuteState) (m : MicState)
    (h : s.microphone = some m) :
    (RecognizerLoop_force_unmute s).1.mute_calls = 0 ∧
    MicAct.reqUnmute ∈ (RecognizerLoop_force_unmute s).2 ∧
    (RecognizerLoop_force_unmute s).1.microphone = some ⟨false⟩ := by
  obtain ⟨c, mic⟩ := s
  simp only at h
  subst h
  exact ⟨rfl, List.mem_singleton.mpr rfl, rfl⟩

/-- Witness for claim C8 at a concrete prior count of 5 with a muted
microphone. -/
theorem force_unmute_resets_and_unmutes_witness :
    (RecognizerLoop_force_unmute ⟨5, some ⟨true⟩⟩).1.mute_calls = 0 ∧
    MicAct.reqUnmute ∈ (RecognizerLoop_force_unmute ⟨5, some ⟨true⟩⟩).2 ∧
    (RecognizerLoop_force_unmute ⟨5, some ⟨true⟩⟩).1.microphone = some ⟨false⟩ :=
  force_unmute_resets_and_unmutes ⟨5, some ⟨true⟩⟩ ⟨true⟩ rfl

/-- One primitive step of the orchestrator shutdown path: flipping the shared
running flag, signalling the blocking recognizer listen call to unblock,
joining a worker thread, or putting an item (None being the sentinel) on the
audio queue. -/
inductive OrchAct where
  | setRunning (b : Bool)
  | recognizerStop
  | joinProducer
  | joinConsumer
  | enqueue (item : Option AudioData)
  deriving DecidableEq

/-- AudioProducer.stop: set running to false and signal the recognizer to
unblock the listen call. -/
def AudioProducer_stop : List OrchAct :=
  [OrchAct.setRunning false, OrchAct.recognizerStop]

/-- RecognizerLoop.stop: set running to false, stop the producer, then join
the producer and the consumer. -/
def RecognizerLoop_stop : List OrchAct :=
  OrchAct.setRunning false ::
    (AudioProducer_stop ++ [OrchAct.joinProducer, OrchAct.joinConsumer])

/-- Step predicate: is a queue put. -/
def isEnqueue : OrchAct → Bool
  | .enqueue _ => true
  | _ => false

/-- Counterexample to claim C1: RecognizerLoop.stop never puts the None
sentinel (nor anything else) on the audio queue, so the claimed
sentinel-enqueue step of the shutdown sequence does not exist in the code. -/
theorem stop_never_enqueues_sentinel :
    (OrchAct.enqueue none ∈ RecognizerLoop_stop) = False := by
  simp only [eq_iff_iff, iff_false]
  decide

/-- Claim C1 (amended): during shutdown, stop sets running to false, signals
the producer (which itself clears running and unblocks the recognizer), then
joins the producer and the consumer; it performs no queue put at all, and a
dequeued None sentinel is a no-op for the consumer. -/
theorem stop_shutdown_sequence :
    RecognizerLoop_stop =
      [OrchAct.setRunning false, OrchAct.setRunning false, OrchAct.recognizerStop,
       OrchAct.joinProducer, OrchAct.joinConsumer] ∧
    RecognizerLoop_stop.filter isEnqueue = [] ∧
    (∀ (ctx : ConsumerCtx) (sleeping found : Bool) (res : STTResult),
      consumerRead ctx sleeping none found res = ([], ctx, sleeping)) :=
  ⟨rfl, rfl, fun _ _ _ _ => rfl⟩
